/-
Verification of the noVNC mouse input coordinator (src/core/input/mouse.js).

Shallow embedding notes:
* JS numbers are modelled as `Int`: client coordinates, rectangle bounds,
  wheel deltas and the device pixel ratio.  Every operation the code performs
  on them (addition, multiplication by integer constants, comparison, sign
  test, squaring) is exact over the integers, so the embedding agrees with
  the JS double semantics on all integer-valued inputs.
* Timer handles (`setTimeout` ids stored in fields) are modelled as `Bool`
  flags: `true` means a timer is currently armed, `false` means the field is
  null / the timer has fired.  `clearTimeout` on an unarmed timer is a no-op,
  as in the host environment.
* Callback registration (`onMouseButton` / `onMouseMove` rw properties) is
  modelled as `Bool` flags; an actual invocation of a registered callback is
  recorded in an output trace of `Effect`s, together with the other external
  side effects (`setCapture`, `stopEvent`).
* A JS `TypeError` (calling a null callback, reading `.x` of a null position)
  is modelled as `Except.error ()`; every handler returns
  `Except Unit (MouseState × List Effect)`.
* `Math.sqrt d < threshold` is embedded as the equivalent (for nonnegative
  radicand and positive threshold) squared comparison `d < threshold ^ 2`,
  keeping the development computable instead of using noncomputable reals.
-/
import Mathlib

namespace NoVNC

/-- Decidable equality for `Except`, so that concrete handler runs can be
checked by `decide`. -/
instance {ε α : Type} [DecidableEq ε] [DecidableEq α] : DecidableEq (Except ε α) :=
  fun x y =>
    match x, y with
    | .ok a, .ok b =>
      if h : a = b then isTrue (by rw [h]) else isFalse (by simp [h])
    | .error a, .error b =>
      if h : a = b then isTrue (by rw [h]) else isFalse (by simp [h])
    | .ok _, .error _ => isFalse (by simp)
    | .error _, .ok _ => isFalse (by simp)

/-- A resolved position, `{x, y}` as produced by `_getMousePosition`. -/
structure Pos where
  x : Int
  y : Int
  deriving DecidableEq, Repr

/-- The target surface's bounding rectangle, as returned by
`getBoundingClientRect()`.  All six DOMRect fields the code reads are kept;
the DOM guarantees `width = right - left` and `height = bottom - top`, which
theorems take as hypotheses where they need it. -/
structure Rect where
  left : Int
  top : Int
  right : Int
  bottom : Int
  width : Int
  height : Int
  deriving DecidableEq, Repr

/-- The fields of a raw host event that the handlers read.
`isTouch` models `e.touches || e.changedTouches` being present;
`which = 0` models a falsy `e.which`; `clientX`/`clientY` are the pointer
coordinates after `getPointerEvent` (for touch events, the first changed
touch point); `targetIsTarget` models `e.target == this._target`. -/
structure RawEvent where
  type : String
  isTouch : Bool
  which : Nat
  button : Nat
  clientX : Int
  clientY : Int
  deltaX : Int
  deltaY : Int
  deltaMode : Nat
  targetIsTarget : Bool
  deriving DecidableEq, Repr

/-- The mutable per-instance state of a `Mouse` object, together with its
configuration attributes (`focused`, `touchButton`) and whether the two
callbacks are registered. -/
structure MouseState where
  doubleClickTimer : Bool
  lastTouchPos : Option Pos
  wheelPos : Option Pos
  wheelStepXTimer : Bool
  wheelStepYTimer : Bool
  accumulatedWheelDeltaX : Int
  accumulatedWheelDeltaY : Int
  focused : Bool
  touchButton : Nat
  onMouseButton : Bool
  onMouseMove : Bool
  deriving DecidableEq, Repr

/-- Externally observable side effects of a handler invocation. -/
inductive Effect where
  | onMouseButton (x y : Int) (down : Nat) (bmask : Nat)
  | onMouseMove (x y : Int)
  | setCapture
  | stopEvent
  deriving DecidableEq, Repr

/-- `WHEEL_STEP`: delta threshold for a mouse wheel step. -/
def WHEEL_STEP : Int := 10

/-- `WHEEL_LINE_HEIGHT`: pixels per line for non-pixel `deltaMode`. -/
def WHEEL_LINE_HEIGHT : Int := 19

/-- `WHEEL_STEP_TIMEOUT` (ms): delay of the flush timer. Timing itself is not
part of the state model; the constant is kept for reference. -/
def WHEEL_STEP_TIMEOUT : Nat := 50

/-- The fresh state built by the `Mouse` constructor with default
configuration (`focused = true`, `touchButton = 1`), callbacks unset. -/
def Mouse.init : MouseState where
  doubleClickTimer := false
  lastTouchPos := none
  wheelPos := none
  wheelStepXTimer := false
  wheelStepYTimer := false
  accumulatedWheelDeltaX := 0
  accumulatedWheelDeltaY := 0
  focused := true
  touchButton := 1
  onMouseButton := false
  onMouseMove := false

/-- `_getMousePosition`: coordinates relative to the target, clipped to the
target bounds independently per axis. -/
def getMousePosition (bounds : Rect) (e : RawEvent) : Pos :=
  let x : Int :=
    if e.clientX < bounds.left then 0
    else if bounds.right ≤ e.clientX then bounds.width - 1
    else e.clientX - bounds.left
  let y : Int :=
    if e.clientY < bounds.top then 0
    else if bounds.bottom ≤ e.clientY then bounds.height - 1
    else e.clientY - bounds.top
  ⟨x, y⟩

/-- The button-mask computation of `_handleMouseButton`: touch events use the
configured `touchButton`; events with a truthy `which` use `1 << e.button`;
otherwise the legacy IE bitfield is decomposed as
`(e.button & 0x1) + (e.button & 0x2) * 2 + (e.button & 0x4) / 2`. -/
def encodeButtonMask (e : RawEvent) (touchButton : Nat) : Nat :=
  if e.isTouch then touchButton
  else if e.which ≠ 0 then 1 <<< e.button
  else (e.button &&& 0x1) + (e.button &&& 0x2) * 2 + (e.button &&& 0x4) / 2

/-- `_resetDoubleClickTimer`: sets the timer handle back to null. -/
def resetDoubleClickTimer (s : MouseState) : MouseState :=
  { s with doubleClickTimer := false }

/-- `_resetWheelStepTimers`: clears both wheel flush timers. -/
def resetWheelStepTimers (s : MouseState) : MouseState :=
  { s with wheelStepXTimer := false, wheelStepYTimer := false }

/-- The final emission step of `_handleMouseButton`: invoke the registered
button callback (if any) and stop the event. -/
def emitButton (s : MouseState) (p : Pos) (down bmask : Nat) :
    MouseState × List Effect :=
  (s, (if s.onMouseButton then [Effect.onMouseButton p.x p.y down bmask]
       else []) ++ [Effect.stopEvent])

/-- The double-click coalescing decision of `_handleMouseButton`: when the
distance between the previous touch `lp` and the new position `pos` is below
the threshold `20 * (devicePixelRatio || 1)`, the new touch is forced to the
previous position.  The code compares `Math.sqrt (xs² + ys²) < threshold`;
this is embedded as the (for positive threshold) equivalent squared
comparison. -/
def touchSnapPos (dpr : Int) (lp pos : Pos) : Pos :=
  let xs : Int := lp.x - pos.x
  let ys : Int := lp.y - pos.y
  let dsq : Int := xs * xs + ys * ys
  let threshold : Int := 20 * (if dpr = 0 then 1 else dpr)
  if dsq < threshold * threshold then lp else pos

/-- `_handleMouseButton`.  `dpr` is `window.devicePixelRatio`. -/
def handleMouseButton (bounds : Rect) (dpr : Int) (e : RawEvent) (down : Nat)
    (s : MouseState) : Except Unit (MouseState × List Effect) :=
  if !s.focused then .ok (s, []) else
  let pos := getMousePosition bounds e
  let bmask := encodeButtonMask e s.touchButton
  if e.isTouch then
    if down = 1 then
      if !s.doubleClickTimer then
        .ok (emitButton { s with lastTouchPos := some pos,
                                 doubleClickTimer := true } pos down bmask)
      else
        match s.lastTouchPos with
        | none => .error ()
        | some lp =>
          .ok (emitButton { s with doubleClickTimer := true }
                 (touchSnapPos dpr lp pos) down bmask)
    else
      .ok (emitButton s pos down bmask)
  else
    .ok (emitButton s pos down bmask)

/-- `_handleMouseDown`: sets pointer capture for genuine `mousedown` events
(before any focus check), then treats the event as a press. -/
def handleMouseDown (bounds : Rect) (dpr : Int) (e : RawEvent)
    (s : MouseState) : Except Unit (MouseState × List Effect) := do
  let cap : List Effect := if e.type = "mousedown" then [Effect.setCapture] else []
  let (s', effs) ← handleMouseButton bounds dpr e 1 s
  .ok (s', cap ++ effs)

/-- `_handleMouseUp`. -/
def handleMouseUp (bounds : Rect) (dpr : Int) (e : RawEvent)
    (s : MouseState) : Except Unit (MouseState × List Effect) :=
  handleMouseButton bounds dpr e 0 s

/-- `_generateWheelStepX`: emit a synthetic press+release pair (bit 5 for
negative, bit 6 for positive accumulated X delta) at the recorded wheel
position, then zero the accumulator.  Reading `_wheelPos.x` with a null
`_wheelPos`, or calling an unregistered `_onMouseButton`, is a `TypeError`
(`Except.error`). -/
def generateWheelStepX (s : MouseState) : Except Unit (MouseState × List Effect) :=
  if s.accumulatedWheelDeltaX < 0 then
    match s.wheelPos, s.onMouseButton with
    | some p, true =>
      .ok ({ s with accumulatedWheelDeltaX := 0 },
           [Effect.onMouseButton p.x p.y 1 (1 <<< 5),
            Effect.onMouseButton p.x p.y 0 (1 <<< 5)])
    | _, _ => .error ()
  else if 0 < s.accumulatedWheelDeltaX then
    match s.wheelPos, s.onMouseButton with
    | some p, true =>
      .ok ({ s with accumulatedWheelDeltaX := 0 },
           [Effect.onMouseButton p.x p.y 1 (1 <<< 6),
            Effect.onMouseButton p.x p.y 0 (1 <<< 6)])
    | _, _ => .error ()
  else
    .ok ({ s with accumulatedWheelDeltaX := 0 }, [])

/-- `_generateWheelStepY`: as `_generateWheelStepX` with bit 3 for negative
and bit 4 for positive accumulated Y delta. -/
def generateWheelStepY (s : MouseState) : Except Unit (MouseState × List Effect) :=
  if s.accumulatedWheelDeltaY < 0 then
    match s.wheelPos, s.onMouseButton with
    | some p, true =>
      .ok ({ s with accumulatedWheelDeltaY := 0 },
           [Effect.onMouseButton p.x p.y 1 (1 <<< 3),
            Effect.onMouseButton p.x p.y 0 (1 <<< 3)])
    | _, _ => .error ()
  else if 0 < s.accumulatedWheelDeltaY then
    match s.wheelPos, s.onMouseButton with
    | some p, true =>
      .ok ({ s with accumulatedWheelDeltaY := 0 },
           [Effect.onMouseButton p.x p.y 1 (1 <<< 4),
            Effect.onMouseButton p.x p.y 0 (1 <<< 4)])
    | _, _ => .error ()
  else
    .ok ({ s with accumulatedWheelDeltaY := 0 }, [])

/-- `_handleMouseWheel`: cancel pending flush timers, record the wheel
position, normalize the deltas (line mode multiplies by 19), accumulate, and
per axis either emit immediately (strictly above threshold) or arm the flush
timer. -/
def handleMouseWheel (bounds : Rect) (e : RawEvent) (s : MouseState) :
    Except Unit (MouseState × List Effect) :=
  if !s.focused || !s.onMouseButton then .ok (s, []) else
  let s1 := resetWheelStepTimers s
  let s2 := { s1 with wheelPos := some (getMousePosition bounds e) }
  let dX : Int := if e.deltaMode ≠ 0 then e.deltaX * WHEEL_LINE_HEIGHT else e.deltaX
  let dY : Int := if e.deltaMode ≠ 0 then e.deltaY * WHEEL_LINE_HEIGHT else e.deltaY
  let s3 := { s2 with
                accumulatedWheelDeltaX := s2.accumulatedWheelDeltaX + dX,
                accumulatedWheelDeltaY := s2.accumulatedWheelDeltaY + dY }
  do
    let (s4, effsX) ←
      if WHEEL_STEP < |s3.accumulatedWheelDeltaX| then generateWheelStepX s3
      else .ok ({ s3 with wheelStepXTimer := true }, [])
    let (s5, effsY) ←
      if WHEEL_STEP < |s4.accumulatedWheelDeltaY| then generateWheelStepY s4
      else .ok ({ s4 with wheelStepYTimer := true }, [])
    .ok (s5, effsX ++ effsY ++ [Effect.stopEvent])

/-- `_handleMouseMove`. -/
def handleMouseMove (bounds : Rect) (e : RawEvent) (s : MouseState) :
    Except Unit (MouseState × List Effect) :=
  if !s.focused then .ok (s, []) else
  let pos := getMousePosition bounds e
  .ok (s, (if s.onMouseMove then [Effect.onMouseMove pos.x pos.y] else []) ++
          [Effect.stopEvent])

/-- `_handleMouseDisable`: stop propagation only when the event targets the
tracked surface. -/
def handleMouseDisable (e : RawEvent) (s : MouseState) :
    Except Unit (MouseState × List Effect) :=
  if !s.focused then .ok (s, []) else
  if e.targetIsTarget then .ok (s, [Effect.stopEvent]) else .ok (s, [])

/-- The state-relevant part of `ungrab`: it calls `_resetWheelStepTimers`.
(Listener deregistration acts on the host event system, which is outside the
modelled state.) -/
def ungrab (s : MouseState) : MouseState :=
  resetWheelStepTimers s

/-- The double-tap expiry timer firing: the armed timer runs
`_resetDoubleClickTimer`. -/
def fireDoubleClickTimer (s : MouseState) : MouseState :=
  resetDoubleClickTimer s

/-- The X flush timer firing: the timer ceases to be pending and runs
`_generateWheelStepX`. -/
def fireWheelStepXTimer (s : MouseState) : Except Unit (MouseState × List Effect) :=
  generateWheelStepX { s with wheelStepXTimer := false }

/-- The Y flush timer firing: the timer ceases to be pending and runs
`_generateWheelStepY`. -/
def fireWheelStepYTimer (s : MouseState) : Except Unit (MouseState × List Effect) :=
  generateWheelStepY { s with wheelStepYTimer := false }

/-! ### Derived notions used to state the properties -/

/-- Whether an effect trace contains an invocation of the button callback
with the given mask. -/
def hasButtonMask (m : Nat) : List Effect → Bool
  | [] => false
  | Effect.onMouseButton _ _ _ b :: rest => b == m || hasButtonMask m rest
  | _ :: rest => hasButtonMask m rest

/-- Whether an effect trace contains any invocation of the button callback. -/
def hasButtonCall : List Effect → Bool
  | [] => false
  | Effect.onMouseButton _ _ _ _ :: _ => true
  | _ :: rest => hasButtonCall rest

/-- Whether an effect trace contains any invocation of the move callback. -/
def hasMoveCall : List Effect → Bool
  | [] => false
  | Effect.onMouseMove _ _ :: _ => true
  | _ :: rest => hasMoveCall rest

/-- The accumulated X delta after a wheel event `e` normalizes and adds its
X delta. -/
def wheelNewX (e : RawEvent) (s : MouseState) : Int :=
  s.accumulatedWheelDeltaX +
    (if e.deltaMode ≠ 0 then e.deltaX * WHEEL_LINE_HEIGHT else e.deltaX)

/-- The accumulated Y delta after a wheel event `e` normalizes and adds its
Y delta. -/
def wheelNewY (e : RawEvent) (s : MouseState) : Int :=
  s.accumulatedWheelDeltaY +
    (if e.deltaMode ≠ 0 then e.deltaY * WHEEL_LINE_HEIGHT else e.deltaY)

/-- The synthetic press+release pair a step-emission routine produces for an
accumulated delta `a`: negative deltas use `negMask`, positive use `posMask`,
zero emits nothing. -/
def stepEffects (p : Pos) (a : Int) (negMask posMask : Nat) : List Effect :=
  if a < 0 then
    [Effect.onMouseButton p.x p.y 1 negMask, Effect.onMouseButton p.x p.y 0 negMask]
  else if 0 < a then
    [Effect.onMouseButton p.x p.y 1 posMask, Effect.onMouseButton p.x p.y 0 posMask]
  else []

/-- The state a focused wheel event with a registered button callback leaves
behind: wheel position recorded, each axis either flushed (delta zeroed,
timer clear) when strictly above threshold, or accumulated with its flush
timer armed. -/
def wheelResultState (bounds : Rect) (e : RawEvent) (s : MouseState) : MouseState :=
  { s with
      wheelPos := some (getMousePosition bounds e),
      accumulatedWheelDeltaX :=
        if WHEEL_STEP < |wheelNewX e s| then 0 else wheelNewX e s,
      accumulatedWheelDeltaY :=
        if WHEEL_STEP < |wheelNewY e s| then 0 else wheelNewY e s,
      wheelStepXTimer := !(WHEEL_STEP < |wheelNewX e s| : Bool),
      wheelStepYTimer := !(WHEEL_STEP < |wheelNewY e s| : Bool) }

/-- The effect trace a focused wheel event with a registered button callback
produces. -/
def wheelResultEffects (bounds : Rect) (e : RawEvent) (s : MouseState) : List Effect :=
  (if WHEEL_STEP < |wheelNewX e s| then
     stepEffects (getMousePosition bounds e) (wheelNewX e s) 32 64
   else []) ++
  (if WHEEL_STEP < |wheelNewY e s| then
     stepEffects (getMousePosition bounds e) (wheelNewY e s) 8 16
   else []) ++
  [Effect.stopEvent]

/-! ### Concrete inputs used by counterexamples and witnesses -/

/-- A target rectangle at the origin, 800 × 600. -/
def rect0 : Rect := ⟨0, 0, 800, 600, 800, 600⟩

/-- A pixel-mode wheel event at (100, 100) with `deltaY = 10` (exactly the
threshold) and `deltaX = 0`. -/
def wheelEv10 : RawEvent :=
  { type := "wheel", isTouch := false, which := 0, button := 0,
    clientX := 100, clientY := 100, deltaX := 0, deltaY := 10,
    deltaMode := 0, targetIsTarget := true }

/-- A touch press event at (100, 100). -/
def touchEv100 : RawEvent :=
  { type := "touchstart", isTouch := true, which := 0, button := 0,
    clientX := 100, clientY := 100, deltaX := 0, deltaY := 0,
    deltaMode := 0, targetIsTarget := true }

/-- A touch press event at (5, 2). -/
def touchEv52 : RawEvent := { touchEv100 with clientX := 5, clientY := 2 }

/-- A genuine `mousedown` event at (100, 100), left button (`which = 1`). -/
def mousedownEv : RawEvent :=
  { type := "mousedown", isTouch := false, which := 1, button := 0,
    clientX := 100, clientY := 100, deltaX := 0, deltaY := 0,
    deltaMode := 0, targetIsTarget := true }

/-- A legacy (`which = 0`) press event with legacy bitfield `e.button = 3`
(left + right in the legacy model). -/
def legacyEv3 : RawEvent := { mousedownEv with which := 0, button := 3 }

/-- The default state with the button callback registered. -/
def sReady : MouseState := { Mouse.init with onMouseButton := true }

/-- A state in the Pending double-tap window with `lastTouchPos = (0, 0)`. -/
def sPending : MouseState :=
  { sReady with doubleClickTimer := true, lastTouchPos := some ⟨0, 0⟩ }

/-- The state `sReady` leaves after `wheelEv10`: Y delta 10 accumulated, both
flush timers armed, no emission. -/
def sAfterWheel10 : MouseState :=
  { sReady with wheelPos := some ⟨100, 100⟩, wheelStepXTimer := true,
                wheelStepYTimer := true, accumulatedWheelDeltaY := 10 }

/-- A state with an armed double-tap timer, armed wheel timers, and nonzero
accumulated wheel deltas. -/
def sLoaded : MouseState :=
  { sReady with doubleClickTimer := true, lastTouchPos := some ⟨5, 5⟩,
                wheelStepXTimer := true, wheelStepYTimer := true,
                accumulatedWheelDeltaX := 5, accumulatedWheelDeltaY := -3 }

/-- A state whose button callback is unregistered while an armed X flush
timer and a nonzero accumulated X delta are pending. -/
def sUnregistered : MouseState :=
  { Mouse.init with accumulatedWheelDeltaX := -5, wheelPos := some ⟨0, 0⟩,
                    wheelStepXTimer := true }

/-- The default state with `touchButton = 0` and the button callback
registered. -/
def sTouchZero : MouseState := { sReady with touchButton := 0 }

/-- An unfocused state. -/
def sUnfocused : MouseState := { sReady with focused := false }

/-- A pixel-mode wheel event at (100, 100) with `deltaY = 11` (strictly above
the threshold). -/
def wheelEv11 : RawEvent := { wheelEv10 with deltaY := 11 }

/-- A move event whose client coordinates lie outside `rect0` on both axes. -/
def moveEvFar : RawEvent :=
  { type := "mousemove", isTouch := false, which := 0, button := 0,
    clientX := 900, clientY := -5, deltaX := 0, deltaY := 0,
    deltaMode := 0, targetIsTarget := true }

/-! ### Helper lemmas -/

theorem ok_bind {ε α β : Type} (a : α) (f : α → Except ε β) :
    (Except.ok a : Except ε α) >>= f = f a := rfl

theorem generateWheelStepX_run (s : MouseState) (p : Pos)
    (hw : s.wheelPos = some p) (hb : s.onMouseButton = true) :
    generateWheelStepX s =
      .ok ({ s with accumulatedWheelDeltaX := 0 },
           stepEffects p s.accumulatedWheelDeltaX 32 64) := by
  unfold generateWheelStepX stepEffects
  rw [hw, hb]
  rcases lt_trichotomy s.accumulatedWheelDeltaX 0 with h | h | h
  · simp [h]
  · simp [h]
  · simp [h, not_lt.mpr (le_of_lt h)]

theorem generateWheelStepY_run (s : MouseState) (p : Pos)
    (hw : s.wheelPos = some p) (hb : s.onMouseButton = true) :
    generateWheelStepY s =
      .ok ({ s with accumulatedWheelDeltaY := 0 },
           stepEffects p s.accumulatedWheelDeltaY 8 16) := by
  unfold generateWheelStepY stepEffects
  rw [hw, hb]
  rcases lt_trichotomy s.accumulatedWheelDeltaY 0 with h | h | h
  · simp [h]
  · simp [h]
  · simp [h, not_lt.mpr (le_of_lt h)]

set_option maxHeartbeats 1000000 in
/-- Full characterization of a focused wheel event with a registered button
callback. -/
theorem handleMouseWheel_run (bounds : Rect) (e : RawEvent) (s : MouseState)
    (hf : s.focused = true) (hb : s.onMouseButton = true) :
    handleMouseWheel bounds e s =
      .ok (wheelResultState bounds e s, wheelResultEffects bounds e s) := by
  unfold handleMouseWheel
  rw [hf, hb]
  simp only [Bool.not_true, Bool.or_self, Bool.false_eq_true, if_false]
  by_cases hX : WHEEL_STEP < |s.accumulatedWheelDeltaX +
      if e.deltaMode = 0 then e.deltaX else e.deltaX * WHEEL_LINE_HEIGHT| <;>
    by_cases hY : WHEEL_STEP < |s.accumulatedWheelDeltaY +
      if e.deltaMode = 0 then e.deltaY else e.deltaY * WHEEL_LINE_HEIGHT| <;>
  · simp [resetWheelStepTimers, hX, hY, hb, wheelResultState, wheelResultEffects,
          wheelNewX, wheelNewY, generateWheelStepX_run, generateWheelStepY_run,
          ok_bind]

theorem error_bind {ε α β : Type} (u : ε) (f : α → Except ε β) :
    (Except.error u : Except ε α) >>= f = Except.error u := rfl

/-- The button handler never performs the pointer-capture effect, on any
path. -/
theorem handleMouseButton_no_capture (bounds : Rect) (dpr : Int) (e : RawEvent)
    (down : Nat) (s : MouseState) (s' : MouseState) (effs : List Effect)
    (h : handleMouseButton bounds dpr e down s = .ok (s', effs)) :
    Effect.setCapture ∉ effs := by
  by_cases h1 : s.focused <;> by_cases h2 : e.isTouch <;>
    by_cases h3 : down = 1 <;> by_cases h4 : s.doubleClickTimer <;>
    rcases hl : s.lastTouchPos with _ | lp <;>
    by_cases h5 : s.onMouseButton <;>
    simp [handleMouseButton, emitButton, h1, h2, h3, h4, hl, h5] at h <;>
    rcases h with ⟨h6, h7⟩ <;> subst h7 <;> simp

theorem hasButtonMask_append (m : Nat) (l1 l2 : List Effect) :
    hasButtonMask m (l1 ++ l2) = (hasButtonMask m l1 || hasButtonMask m l2) := by
  induction l1 with
  | nil => rfl
  | cons hd tl ih => cases hd <;> simp [hasButtonMask, ih, Bool.or_assoc]

/-! ### Claims -/

/-- C1, counterexample: a wheel event bringing the accumulated Y delta to
exactly the threshold 10 does NOT trigger immediate synchronous emission —
the handler invokes no button callback, leaves the delta at 10, and merely
arms the flush timer; the step would fire only when the 50 ms timer fires,
not before the flush delay elapses.  This refutes the claim, which asserts
emission at `|accumulatedDelta| = threshold`; the code tests the strict
`Math.abs(acc) > WHEEL_STEP`. -/
theorem c1_counterexample :
    handleMouseWheel rect0 wheelEv10 sReady =
      .ok (sAfterWheel10, [Effect.stopEvent]) ∧
    hasButtonCall [Effect.stopEvent] = false ∧
    sAfterWheel10.accumulatedWheelDeltaY = 10 ∧
    sAfterWheel10.wheelStepYTimer = true ∧
    wheelNewY wheelEv10 sReady = WHEEL_STEP := by decide

/-- C1, amended: for a focused wheel event with a registered button callback,
on each axis independently: if the new accumulated delta strictly exceeds the
threshold 10 in absolute value, a step (press+release with that axis's mask)
is emitted synchronously and the accumulator is reset; if it equals the
threshold exactly, no step for that axis is emitted synchronously — the
flush timer is armed and emits the (nonempty) step only when it fires. -/
theorem c1_wheel_threshold_amended (bounds : Rect) (e : RawEvent) (s : MouseState)
    (hf : s.focused = true) (hb : s.onMouseButton = true) :
    (WHEEL_STEP < |wheelNewY e s| →
      ∃ s' effs, handleMouseWheel bounds e s = .ok (s', effs) ∧
        (hasButtonMask 8 effs || hasButtonMask 16 effs) = true ∧
        s'.accumulatedWheelDeltaY = 0 ∧ s'.wheelStepYTimer = false) ∧
    (|wheelNewY e s| = WHEEL_STEP →
      ∃ s' effs, handleMouseWheel bounds e s = .ok (s', effs) ∧
        hasButtonMask 8 effs = false ∧ hasButtonMask 16 effs = false ∧
        s'.wheelStepYTimer = true ∧
        s'.accumulatedWheelDeltaY = wheelNewY e s ∧
        fireWheelStepYTimer s' =
          .ok ({ s' with wheelStepYTimer := false, accumulatedWheelDeltaY := 0 },
               stepEffects (getMousePosition bounds e) (wheelNewY e s) 8 16) ∧
        stepEffects (getMousePosition bounds e) (wheelNewY e s) 8 16 ≠ []) ∧
    (WHEEL_STEP < |wheelNewX e s| →
      ∃ s' effs, handleMouseWheel bounds e s = .ok (s', effs) ∧
        (hasButtonMask 32 effs || hasButtonMask 64 effs) = true ∧
        s'.accumulatedWheelDeltaX = 0 ∧ s'.wheelStepXTimer = false) ∧
    (|wheelNewX e s| = WHEEL_STEP →
      ∃ s' effs, handleMouseWheel bounds e s = .ok (s', effs) ∧
        hasButtonMask 32 effs = false ∧ hasButtonMask 64 effs = false ∧
        s'.wheelStepXTimer = true ∧
        s'.accumulatedWheelDeltaX = wheelNewX e s ∧
        fireWheelStepXTimer s' =
          .ok ({ s' with wheelStepXTimer := false, accumulatedWheelDeltaX := 0 },
               stepEffects (getMousePosition bounds e) (wheelNewX e s) 32 64) ∧
        stepEffects (getMousePosition bounds e) (wheelNewX e s) 32 64 ≠ []) := by
  refine ⟨?_, ?_, ?_, ?_⟩
  · intro h
    refine ⟨_, _, handleMouseWheel_run bounds e s hf hb, ?_, ?_, ?_⟩
    · unfold wheelResultEffects
      rw [if_pos h]
      rcases lt_trichotomy (wheelNewY e s) 0 with hs | hs | hs
      · simp [hasButtonMask_append, stepEffects, hs, hasButtonMask]
      · rw [hs] at h; norm_num [WHEEL_STEP] at h
      · simp [hasButtonMask_append, stepEffects, hs, not_lt.mpr (le_of_lt hs),
              hasButtonMask]
    · simp [wheelResultState, h]
    · simp [wheelResultState, h]
  · intro h
    have hnlt : ¬ WHEEL_STEP < |wheelNewY e s| := by rw [h]; exact lt_irrefl _
    have hne : wheelNewY e s ≠ 0 := by
      intro h0; rw [h0] at h; norm_num [WHEEL_STEP] at h
    have hmasks : hasButtonMask 8 (wheelResultEffects bounds e s) = false ∧
        hasButtonMask 16 (wheelResultEffects bounds e s) = false := by
      unfold wheelResultEffects
      rw [if_neg hnlt]
      by_cases hX : WHEEL_STEP < |wheelNewX e s|
      · rw [if_pos hX]
        rcases lt_trichotomy (wheelNewX e s) 0 with hs | hs | hs
        · simp [hasButtonMask_append, stepEffects, hs, hasButtonMask]
        · rw [hs] at hX; norm_num [WHEEL_STEP] at hX
        · simp [hasButtonMask_append, stepEffects, hs,
                not_lt.mpr (le_of_lt hs), hasButtonMask]
      · rw [if_neg hX]; simp [hasButtonMask_append, hasButtonMask]
    refine ⟨_, _, handleMouseWheel_run bounds e s hf hb, hmasks.1, hmasks.2,
            ?_, ?_, ?_, ?_⟩
    · simp [wheelResultState, hnlt]
    · simp [wheelResultState, hnlt]
    · unfold fireWheelStepYTimer
      rw [generateWheelStepY_run _ (getMousePosition bounds e)
            (by simp [wheelResultState]) (by simp [wheelResultState, hb])]
      simp [wheelResultState, hnlt]
    · rcases lt_trichotomy (wheelNewY e s) 0 with hs | hs | hs
      · simp [stepEffects, hs]
      · exact absurd hs hne
      · simp [stepEffects, hs, not_lt.mpr (le_of_lt hs)]
  · intro h
    refine ⟨_, _, handleMouseWheel_run bounds e s hf hb, ?_, ?_, ?_⟩
    · unfold wheelResultEffects
      rw [if_pos h]
      rcases lt_trichotomy (wheelNewX e s) 0 with hs | hs | hs
      · simp [hasButtonMask_append, stepEffects, hs, hasButtonMask]
      · rw [hs] at h; norm_num [WHEEL_STEP] at h
      · simp [hasButtonMask_append, stepEffects, hs, not_lt.mpr (le_of_lt hs),
              hasButtonMask]
    · simp [wheelResultState, h]
    · simp [wheelResultState, h]
  · intro h
    have hnlt : ¬ WHEEL_STEP < |wheelNewX e s| := by rw [h]; exact lt_irrefl _
    have hne : wheelNewX e s ≠ 0 := by
      intro h0; rw [h0] at h; norm_num [WHEEL_STEP] at h
    have hmasks : hasButtonMask 32 (wheelResultEffects bounds e s) = false ∧
        hasButtonMask 64 (wheelResultEffects bounds e s) = false := by
      unfold wheelResultEffects
      rw [if_neg hnlt]
      by_cases hY : WHEEL_STEP < |wheelNewY e s|
      · rw [if_pos hY]
        rcases lt_trichotomy (wheelNewY e s) 0 with hs | hs | hs
        · simp [hasButtonMask_append, stepEffects, hs, hasButtonMask]
        · rw [hs] at hY; norm_num [WHEEL_STEP] at hY
        · simp [hasButtonMask_append, stepEffects, hs,
                not_lt.mpr (le_of_lt hs), hasButtonMask]
      · rw [if_neg hY]; simp [hasButtonMask_append, hasButtonMask]
    refine ⟨_, _, handleMouseWheel_run bounds e s hf hb, hmasks.1, hmasks.2,
            ?_, ?_, ?_, ?_⟩
    · simp [wheelResultState, hnlt]
    · simp [wheelResultState, hnlt]
    · unfold fireWheelStepXTimer
      rw [generateWheelStepX_run _ (getMousePosition bounds e)
            (by simp [wheelResultState]) (by simp [wheelResultState, hb])]
      simp [wheelResultState, hnlt]
    · rcases lt_trichotomy (wheelNewX e s) 0 with hs | hs | hs
      · simp [stepEffects, hs]
      · exact absurd hs hne
      · simp [stepEffects, hs, not_lt.mpr (le_of_lt hs)]

/-- C1, witness: a wheel event with `deltaY = 11` (strictly above threshold)
emits synchronously; a wheel event with `deltaY = 10` (exactly threshold)
does not, and its armed flush timer later emits the step. -/
theorem c1_witness :
    (∃ s' effs, handleMouseWheel rect0 wheelEv11 sReady = .ok (s', effs) ∧
      (hasButtonMask 8 effs || hasButtonMask 16 effs) = true ∧
      s'.accumulatedWheelDeltaY = 0 ∧ s'.wheelStepYTimer = false) ∧
    (∃ s' effs, handleMouseWheel rect0 wheelEv10 sReady = .ok (s', effs) ∧
      hasButtonMask 8 effs = false ∧ hasButtonMask 16 effs = false ∧
      s'.wheelStepYTimer = true ∧
      s'.accumulatedWheelDeltaY = wheelNewY wheelEv10 sReady ∧
      fireWheelStepYTimer s' =
        .ok ({ s' with wheelStepYTimer := false, accumulatedWheelDeltaY := 0 },
             stepEffects (getMousePosition rect0 wheelEv10)
               (wheelNewY wheelEv10 sReady) 8 16) ∧
      stepEffects (getMousePosition rect0 wheelEv10)
        (wheelNewY wheelEv10 sReady) 8 16 ≠ []) :=
  ⟨(c1_wheel_threshold_amended rect0 wheelEv11 sReady rfl rfl).1 (by decide),
   (c1_wheel_threshold_amended rect0 wheelEv10 sReady rfl rfl).2.1 (by decide)⟩

/-- C2: the encoded button mask is the configured `touchButton` for
touch-sourced events; `1 << buttonIndex` when a modern `which` field is
exposed (left 0 ↦ 1, middle 1 ↦ 2, right 2 ↦ 4); otherwise the legacy
bitfield is decomposed with output bit 0 = legacy bit 0, output bit 1 =
legacy bit 2, output bit 2 = legacy bit 1 (legacy right/middle swapped
relative to modern). -/
theorem c2_button_mask_encoding (e : RawEvent) (tb : Nat) :
    (e.isTouch = true → encodeButtonMask e tb = tb) ∧
    (e.isTouch = false → e.which ≠ 0 →
      encodeButtonMask e tb = 1 <<< e.button ∧
      (e.button = 0 → encodeButtonMask e tb = 1) ∧
      (e.button = 1 → encodeButtonMask e tb = 2) ∧
      (e.button = 2 → encodeButtonMask e tb = 4)) ∧
    (e.isTouch = false → e.which = 0 → e.button < 8 →
      (encodeButtonMask e tb).testBit 0 = e.button.testBit 0 ∧
      (encodeButtonMask e tb).testBit 1 = e.button.testBit 2 ∧
      (encodeButtonMask e tb).testBit 2 = e.button.testBit 1) := by
  refine ⟨?_, ?_, ?_⟩
  · intro h; simp [encodeButtonMask, h]
  · intro h hw
    have hm : encodeButtonMask e tb = 1 <<< e.button := by
      simp [encodeButtonMask, h, hw]
    refine ⟨hm, ?_, ?_, ?_⟩ <;> intro hbtn <;> rw [hm, hbtn] <;> decide
  · intro h hw hb
    have hm : encodeButtonMask e tb =
        (e.button &&& 0x1) + (e.button &&& 0x2) * 2 + (e.button &&& 0x4) / 2 := by
      simp [encodeButtonMask, h, hw]
    rw [hm]
    generalize hg : e.button = b at hb
    interval_cases b <;> decide

/-- C2, witness: the legacy bitfield 3 (legacy left + right) is re-encoded
with the documented bit swap. -/
theorem c2_witness :
    (encodeButtonMask legacyEv3 1).testBit 0 = (legacyEv3.button).testBit 0 ∧
    (encodeButtonMask legacyEv3 1).testBit 1 = (legacyEv3.button).testBit 2 ∧
    (encodeButtonMask legacyEv3 1).testBit 2 = (legacyEv3.button).testBit 1 :=
  (c2_button_mask_encoding legacyEv3 1).2.2 rfl rfl (by decide)

/-- C3, counterexample: after `ungrab()` on a state with an armed double-tap
timer and nonzero accumulated wheel deltas, the double-tap timer is still
armed and the accumulated deltas are unchanged — refuting the claim that all
pending timers are cancelled and both accumulators are zero. -/
theorem c3_counterexample :
    ¬ ((ungrab sLoaded).doubleClickTimer = false ∧
       (ungrab sLoaded).accumulatedWheelDeltaX = 0 ∧
       (ungrab sLoaded).accumulatedWheelDeltaY = 0) := by decide

/-- C3, amended: `ungrab()` cancels both wheel flush timers; the touch
merger's double-tap timer, the recorded last touch position, and both wheel
accumulated deltas are left untouched. -/
theorem c3_ungrab_amended (s : MouseState) :
    (ungrab s).wheelStepXTimer = false ∧
    (ungrab s).wheelStepYTimer = false ∧
    (ungrab s).doubleClickTimer = s.doubleClickTimer ∧
    (ungrab s).lastTouchPos = s.lastTouchPos ∧
    (ungrab s).accumulatedWheelDeltaX = s.accumulatedWheelDeltaX ∧
    (ungrab s).accumulatedWheelDeltaY = s.accumulatedWheelDeltaY :=
  ⟨rfl, rfl, rfl, rfl, rfl, rfl⟩

/-- C4: the resolved position is computed independently per axis — 0 below
the bound's minimum, extent − 1 at or beyond the bound's maximum, coordinate
minus minimum otherwise — and therefore lies in `[0, extent − 1]` on each
axis (for a well-formed DOM rectangle with positive extents). -/
theorem c4_position_resolution (bounds : Rect) (e : RawEvent)
    (hwidth : bounds.width = bounds.right - bounds.left)
    (hheight : bounds.height = bounds.bottom - bounds.top)
    (hw : 1 ≤ bounds.width) (hh : 1 ≤ bounds.height) :
    (getMousePosition bounds e).x =
      (if e.clientX < bounds.left then 0
       else if bounds.right ≤ e.clientX then bounds.width - 1
       else e.clientX - bounds.left) ∧
    (getMousePosition bounds e).y =
      (if e.clientY < bounds.top then 0
       else if bounds.bottom ≤ e.clientY then bounds.height - 1
       else e.clientY - bounds.top) ∧
    0 ≤ (getMousePosition bounds e).x ∧
    (getMousePosition bounds e).x ≤ bounds.width - 1 ∧
    0 ≤ (getMousePosition bounds e).y ∧
    (getMousePosition bounds e).y ≤ bounds.height - 1 := by
  unfold getMousePosition
  refine ⟨rfl, rfl, ?_, ?_, ?_, ?_⟩ <;> dsimp only <;> split_ifs <;> omega

/-- C4, witness: an event outside the 800 × 600 rectangle on both axes
resolves to a clamped in-range position. -/
theorem c4_witness :
    0 ≤ (getMousePosition rect0 moveEvFar).x ∧
    (getMousePosition rect0 moveEvFar).x ≤ rect0.width - 1 ∧
    0 ≤ (getMousePosition rect0 moveEvFar).y ∧
    (getMousePosition rect0 moveEvFar).y ≤ rect0.height - 1 := by
  have h := c4_position_resolution rect0 moveEvFar rfl rfl (by decide) (by decide)
  exact ⟨h.2.2.1, h.2.2.2.1, h.2.2.2.2.1, h.2.2.2.2.2⟩

/-- C5, counterexample: pending state with `lastPosition = (0, 0)`, new touch
press at (100, 100) (distance far beyond the threshold): the handler emits at
the new position but leaves `lastTouchPos = (0, 0)` — it does NOT record the
new (unsnapped) position as the new last position, refuting that conjunct of
the claim. -/
theorem c5_counterexample :
    handleMouseButton rect0 1 touchEv100 1 sPending =
      .ok ({ sPending with doubleClickTimer := true },
           [Effect.onMouseButton 100 100 1 1, Effect.stopEvent]) ∧
    ({ sPending with doubleClickTimer := true }).lastTouchPos = some ⟨0, 0⟩ ∧
    some (⟨0, 0⟩ : Pos) ≠ some (⟨100, 100⟩ : Pos) := by decide

/-- C5, amended: a touch press in the Pending state cancels and re-arms the
expiry timer, emits at the prior `lastPosition` if and only if the Euclidean
distance to the new position is strictly below 20 × devicePixelRatio
(otherwise at the new position unchanged), and leaves `lastPosition` exactly
as it was — it coincides with the snapped position when a snap occurs but is
not updated to the new position otherwise. -/
theorem c5_pending_press_amended (bounds : Rect) (dpr : Int) (e : RawEvent)
    (s : MouseState) (lp : Pos)
    (hf : s.focused = true) (ht : e.isTouch = true) (hp : s.doubleClickTimer = true)
    (hl : s.lastTouchPos = some lp) (hb : s.onMouseButton = true) (hdpr : 0 < dpr) :
    handleMouseButton bounds dpr e 1 s =
      .ok ({ s with doubleClickTimer := true },
           [Effect.onMouseButton (touchSnapPos dpr lp (getMousePosition bounds e)).x
              (touchSnapPos dpr lp (getMousePosition bounds e)).y 1 s.touchButton,
            Effect.stopEvent]) ∧
    ({ s with doubleClickTimer := true }).lastTouchPos = some lp ∧
    (∀ pos : Pos,
      (lp.x - pos.x) * (lp.x - pos.x) + (lp.y - pos.y) * (lp.y - pos.y) <
        (20 * dpr) * (20 * dpr) →
      touchSnapPos dpr lp pos = lp) ∧
    (∀ pos : Pos,
      ¬ ((lp.x - pos.x) * (lp.x - pos.x) + (lp.y - pos.y) * (lp.y - pos.y) <
        (20 * dpr) * (20 * dpr)) →
      touchSnapPos dpr lp pos = pos) := by
  have hdpr' : (if dpr = 0 then 1 else dpr) = dpr := by
    rw [if_neg (by omega)]
  refine ⟨?_, by simp [hl], ?_, ?_⟩
  · simp [handleMouseButton, emitButton, encodeButtonMask, hf, ht, hp, hl, hb]
  · intro pos hlt; simp only [touchSnapPos, hdpr']; rw [if_pos hlt]
  · intro pos hlt; simp only [touchSnapPos, hdpr']; rw [if_neg hlt]

/-- C5, witness: a pending press at distance √29 < 20 from the prior touch
snaps to the prior position (0, 0). -/
theorem c5_witness :
    handleMouseButton rect0 1 touchEv52 1 sPending =
      .ok ({ sPending with doubleClickTimer := true },
           [Effect.onMouseButton
              (touchSnapPos 1 ⟨0, 0⟩ (getMousePosition rect0 touchEv52)).x
              (touchSnapPos 1 ⟨0, 0⟩ (getMousePosition rect0 touchEv52)).y
              1 sPending.touchButton,
            Effect.stopEvent]) ∧
    touchSnapPos 1 ⟨0, 0⟩ (getMousePosition rect0 touchEv52) = ⟨0, 0⟩ :=
  ⟨(c5_pending_press_amended rect0 1 touchEv52 sPending ⟨0, 0⟩
      rfl rfl rfl rfl rfl (by decide)).1,
   (c5_pending_press_amended rect0 1 touchEv52 sPending ⟨0, 0⟩
      rfl rfl rfl rfl rfl (by decide)).2.2.1 (getMousePosition rect0 touchEv52)
      (by decide)⟩

/-- C6, counterexample: when the double-tap expiry timer fires, the timer
handle is cleared but `lastTouchPos` keeps its stale value — it is not reset
to `none`, refuting the claim's "lastPosition cleared to none". -/
theorem c6_counterexample :
    (fireDoubleClickTimer sLoaded).doubleClickTimer = false ∧
    (fireDoubleClickTimer sLoaded).lastTouchPos = some ⟨5, 5⟩ ∧
    (fireDoubleClickTimer sLoaded).lastTouchPos ≠ none := by decide

/-- C6, amended: the expiry timer firing transitions the merger to Idle
(timer handle cleared) while `lastTouchPos` retains its stale value;
nevertheless no later press can snap to a position recorded before the
expiry, because the next touch press finds the Idle state, overwrites
`lastTouchPos` with its own position, and returns that position unchanged. -/
theorem c6_expiry_amended (s : MouseState) :
    (fireDoubleClickTimer s).doubleClickTimer = false ∧
    (fireDoubleClickTimer s).lastTouchPos = s.lastTouchPos ∧
    (∀ (bounds : Rect) (dpr : Int) (e : RawEvent),
      e.isTouch = true → s.focused = true → s.onMouseButton = true →
      handleMouseButton bounds dpr e 1 (fireDoubleClickTimer s) =
        .ok ({ s with doubleClickTimer := true,
                      lastTouchPos := some (getMousePosition bounds e) },
             [Effect.onMouseButton (getMousePosition bounds e).x
                (getMousePosition bounds e).y 1 s.touchButton,
              Effect.stopEvent])) := by
  refine ⟨rfl, rfl, ?_⟩
  intro bounds dpr e ht hf hb
  simp [handleMouseButton, fireDoubleClickTimer, resetDoubleClickTimer,
        emitButton, encodeButtonMask, ht, hf, hb]

/-- C6, witness: after an expiry on a state holding the stale position
(5, 5), a fresh press at (100, 100) is emitted at its own position and
overwrites the recorded position. -/
theorem c6_witness :
    (fireDoubleClickTimer sLoaded).doubleClickTimer = false ∧
    handleMouseButton rect0 1 touchEv100 1 (fireDoubleClickTimer sLoaded) =
      .ok ({ sLoaded with doubleClickTimer := true,
                          lastTouchPos := some (getMousePosition rect0 touchEv100) },
           [Effect.onMouseButton (getMousePosition rect0 touchEv100).x
              (getMousePosition rect0 touchEv100).y 1 sLoaded.touchButton,
            Effect.stopEvent]) :=
  ⟨(c6_expiry_amended sLoaded).1,
   (c6_expiry_amended sLoaded).2.2 rect0 1 touchEv100 rfl rfl rfl⟩

/-- C7: with `touchButton = 0`, a focused touch press with a registered
button callback still invokes the callback — with mask 0 — instead of
suppressing the event as the configuration comment ("0 means ignore clicks")
and the claim describe. -/
theorem c7_touchbutton_zero_emits :
    handleMouseButton rect0 1 touchEv100 1 sTouchZero =
      .ok ({ sTouchZero with lastTouchPos := some ⟨100, 100⟩,
                             doubleClickTimer := true },
           [Effect.onMouseButton 100 100 1 0, Effect.stopEvent]) ∧
    hasButtonCall [Effect.onMouseButton 100 100 1 0, Effect.stopEvent] = true := by
  decide

/-- C8, counterexample: a wheel flush timer firing while the button callback
is unregistered and the accumulated delta is nonzero fails (JS `TypeError`
from calling a null callback) instead of silently suppressing emission. -/
theorem c8_counterexample :
    fireWheelStepXTimer sUnregistered = .error () ∧
    sUnregistered.onMouseButton = false ∧
    sUnregistered.accumulatedWheelDeltaX ≠ 0 := by decide

/-- C8, amended: with the callbacks unregistered, the button handler emits no
button callback on any successful path, the move handler and the wheel-event
entry silently suppress emission, but the step-emission routines themselves
do not check registration: fired with a nonzero accumulated delta they fail
rather than suppress. -/
theorem c8_unregistered_amended (bounds : Rect) (dpr : Int) (e : RawEvent)
    (down : Nat) (s : MouseState)
    (hbm : s.onMouseButton = false) (hmm : s.onMouseMove = false) :
    (∀ s' effs, handleMouseButton bounds dpr e down s = .ok (s', effs) →
        hasButtonCall effs = false) ∧
    (handleMouseMove bounds e s =
        .ok (s, if s.focused then [Effect.stopEvent] else [])) ∧
    (handleMouseWheel bounds e s = .ok (s, [])) ∧
    (s.accumulatedWheelDeltaX ≠ 0 → fireWheelStepXTimer s = .error ()) ∧
    (s.accumulatedWheelDeltaY ≠ 0 → fireWheelStepYTimer s = .error ()) := by
  refine ⟨?_, ?_, ?_, ?_, ?_⟩
  · intro s' effs h
    by_cases h1 : s.focused <;> by_cases h2 : e.isTouch <;>
      by_cases h3 : down = 1 <;> by_cases h4 : s.doubleClickTimer <;>
      rcases hl : s.lastTouchPos with _ | lp <;>
      simp [handleMouseButton, emitButton, h1, h2, h3, h4, hl, hbm] at h <;>
      rcases h with ⟨h5, h6⟩ <;> subst h6 <;> rfl
  · by_cases hf : s.focused <;> simp [handleMouseMove, hmm, hf]
  · simp [handleMouseWheel, hbm]
  · intro hne
    rcases lt_trichotomy s.accumulatedWheelDeltaX 0 with h | h | h
    · rcases hw : s.wheelPos with _ | p <;>
        simp [fireWheelStepXTimer, generateWheelStepX, hbm, hw, h]
    · exact absurd h hne
    · rcases hw : s.wheelPos with _ | p <;>
        simp [fireWheelStepXTimer, generateWheelStepX, hbm, hw, h,
              not_lt.mpr (le_of_lt h)]
  · intro hne
    rcases lt_trichotomy s.accumulatedWheelDeltaY 0 with h | h | h
    · rcases hw : s.wheelPos with _ | p <;>
        simp [fireWheelStepYTimer, generateWheelStepY, hbm, hw, h]
    · exact absurd h hne
    · rcases hw : s.wheelPos with _ | p <;>
        simp [fireWheelStepYTimer, generateWheelStepY, hbm, hw, h,
              not_lt.mpr (le_of_lt h)]

/-- C8, witness: with an unregistered callback the wheel-event entry
suppresses silently, while a fired flush timer with nonzero delta fails. -/
theorem c8_witness :
    handleMouseWheel rect0 wheelEv11 sUnregistered = .ok (sUnregistered, []) ∧
    fireWheelStepYTimer { sUnregistered with accumulatedWheelDeltaY := 3 } =
      .error () :=
  ⟨(c8_unregistered_amended rect0 1 wheelEv11 1 sUnregistered rfl rfl).2.2.1,
   (c8_unregistered_amended rect0 1 wheelEv11 1
      { sUnregistered with accumulatedWheelDeltaY := 3 } rfl rfl).2.2.2.2
      (by decide)⟩

/-- C9, counterexample: a `mousedown` event arriving while `focused = false`
still performs the pointer-capture side effect, refuting "no other side
effect is performed". -/
theorem c9_counterexample :
    handleMouseDown rect0 1 mousedownEv sUnfocused =
      .ok (sUnfocused, [Effect.setCapture]) ∧
    [Effect.setCapture] ≠ ([] : List Effect) := by decide

/-- C9, amended: while `focused = false` every handler leaves the state
unchanged and performs no effect — except that a press of type `mousedown`
additionally performs the pointer-capture effect before the focus gate. -/
theorem c9_focus_gate_amended (bounds : Rect) (dpr : Int) (e : RawEvent)
    (down : Nat) (s : MouseState) (hf : s.focused = false) :
    handleMouseButton bounds dpr e down s = .ok (s, []) ∧
    handleMouseUp bounds dpr e s = .ok (s, []) ∧
    handleMouseMove bounds e s = .ok (s, []) ∧
    handleMouseWheel bounds e s = .ok (s, []) ∧
    handleMouseDisable e s = .ok (s, []) ∧
    handleMouseDown bounds dpr e s =
      .ok (s, if e.type = "mousedown" then [Effect.setCapture] else []) := by
  refine ⟨?_, ?_, ?_, ?_, ?_, ?_⟩ <;>
    simp [handleMouseButton, handleMouseUp, handleMouseMove, handleMouseWheel,
          handleMouseDisable, handleMouseDown, hf, ok_bind]

/-- C9, witness: unfocused wheel and touch-press events are fully ignored. -/
theorem c9_witness :
    handleMouseWheel rect0 wheelEv11 sUnfocused = .ok (sUnfocused, []) ∧
    handleMouseDown rect0 1 touchEv100 sUnfocused = .ok (sUnfocused, []) := by
  have h := c9_focus_gate_amended rect0 1 touchEv100 1 sUnfocused rfl
  have h2 := c9_focus_gate_amended rect0 1 wheelEv11 1 sUnfocused rfl
  exact ⟨h2.2.2.2.1, by simpa using h.2.2.2.2.2⟩

/-- C10: for `mousedown`-typed events pointer capture is set first — it is
the head of the effect trace and occurs even when `focused = false` — while
events of any other type (in particular touch presses) never produce the
explicit capture effect. -/
theorem c10_capture_before_focus (bounds : Rect) (dpr : Int) (e : RawEvent)
    (s : MouseState) :
    (e.type = "mousedown" → s.focused = false →
      handleMouseDown bounds dpr e s = .ok (s, [Effect.setCapture])) ∧
    (e.type = "mousedown" →
      ∀ s' effs, handleMouseDown bounds dpr e s = .ok (s', effs) →
        effs.head? = some Effect.setCapture) ∧
    (e.type ≠ "mousedown" →
      ∀ s' effs, handleMouseDown bounds dpr e s = .ok (s', effs) →
        Effect.setCapture ∉ effs) := by
  refine ⟨?_, ?_, ?_⟩
  · intro hty hf
    simp [handleMouseDown, handleMouseButton, hf, hty, ok_bind]
  · intro hty s' effs h
    unfold handleMouseDown at h
    rcases hres : handleMouseButton bounds dpr e 1 s with u | ⟨t, fx⟩ <;>
      rw [hres] at h
    · simp [error_bind] at h
    · simp [ok_bind, hty] at h
      rcases h with ⟨h1, h2⟩
      subst h2; rfl
  · intro hty s' effs h
    unfold handleMouseDown at h
    rcases hres : handleMouseButton bounds dpr e 1 s with u | ⟨t, fx⟩ <;>
      rw [hres] at h
    · simp [error_bind] at h
    · simp [ok_bind, hty] at h
      rcases h with ⟨h1, h2⟩
      subst h2
      exact handleMouseButton_no_capture bounds dpr e 1 s t fx hres

/-- C10, witness: an unfocused `mousedown` still captures; a focused touch
press produces a trace without the capture effect. -/
theorem c10_witness :
    handleMouseDown rect0 1 mousedownEv sUnfocused =
      .ok (sUnfocused, [Effect.setCapture]) ∧
    Effect.setCapture ∉
      ([Effect.onMouseButton 100 100 1 1, Effect.stopEvent] : List Effect) :=
  ⟨(c10_capture_before_focus rect0 1 mousedownEv sUnfocused).1 rfl rfl,
   (c10_capture_before_focus rect0 1 touchEv100 sReady).2.2 (by decide)
     { sReady with lastTouchPos := some ⟨100, 100⟩, doubleClickTimer := true }
     [Effect.onMouseButton 100 100 1 1, Effect.stopEvent] (by decide)⟩

end NoVNC
